import Mathlib

/-!
Shallow embedding of the Socket.IO server of src/server.js (repository
A-T): the connectedUsers registry, role registration, emergency dispatch
and traffic-status routing.

Wiring of the source: the io.on connection callback opens at line 136 and
closes at line 252, so only the registerRole (139), emergency (154),
emergencyAlert echo (199, no state effect) and trafficStatus (214)
listeners are ever registered on a connection.  The statements at lines
255-319 — among them the socket.on registrations for trafficStatusUpdate
(267), sendNotification (274), updateLocation (295) and disconnect
(312) — sit at module top level and reference the undefined variable
socket: evaluating line 267 raises a ReferenceError at module load, and
none of these four handlers is ever attached to any connection.  The
embedding therefore wires only the installed handlers into the event
step function and treats the other inbound events as unhandled no-ops;
a transport-level disconnect removes the socket itself but runs no
application cleanup, so the connectedUsers entry survives.

Numbers are modelled as rationals.  The dispatch code in the source
computes Math.sqrt of the squared planar distance and compares the results
with a strict less-than; the square root is strictly monotone on the
nonnegative reals, so comparing the squared distances directly is
equivalent, and the embedding keeps the squared distance without taking
the root.  JS undefined fields are modelled as none; JS truthiness of a
string is "present and nonempty", of a number is "present and nonzero",
and of an object is "present".
-/

namespace AT

/-- Planar coordinates of an emergency location (the data.location payload
of the emergency event). -/
structure Loc where
  lat : ℚ
  lon : ℚ
deriving DecidableEq

/-- One record of the connectedUsers object: the spread of the incoming
registration data plus the fields the handlers later mutate
(licensePlate, location, lat, lon).  The socket reference stored in the
JS record is the connection handle itself, which is the key of the entry,
so it is not repeated inside the record. -/
structure UserRec where
  role : String
  licensePlate : Option String
  name : Option String
  phone : Option String
  lat : Option ℚ
  lon : Option ℚ
  location : Option Loc
deriving DecidableEq

/-- Payload of a registerRole event. -/
structure RegisterData where
  role : String
  licensePlate : Option String
  name : Option String
  phone : Option String
  lat : Option ℚ
  lon : Option ℚ
deriving DecidableEq

/-- Server state: the list of connected transport handles (socket ids, in
connection order) and the connectedUsers object, modelled as an
association list in key-insertion order (JS objects with string keys
iterate in insertion order). -/
structure ServerState where
  sockets : List String
  users : List (String × UserRec)
deriving DecidableEq

/-- Outbound events named in the source; the first component is the
receiving connection handle.  Only the first three can actually be
emitted: liveLocationUpdate and receiveNotification appear solely in the
never-attached top-level handlers. -/
inductive Emit where
  | emergencyAlert (dst : String) (licensePlate : String) (location : Loc)
  | policeLocation (dst : String) (lat lon : Option ℚ)
  | trafficStatusUpdate (dst : String) (status : String)
  | liveLocationUpdate (dst : String) (id : String) (lat lon : Option ℚ) (role : String)
  | receiveNotification (dst : String) (message : Option String)
deriving DecidableEq

/-- JS truthiness of a possibly-missing string (undefined and the empty
string are falsy). -/
def strTruthy : Option String → Bool
  | none => false
  | some s => s != ""

/-- JS truthiness of a possibly-missing number (undefined and 0 are
falsy). -/
def numTruthy : Option ℚ → Bool
  | none => false
  | some x => x != 0

/-- Lookup connectedUsers[h]. -/
def lookupUser (h : String) : List (String × UserRec) → Option UserRec
  | [] => none
  | p :: rest => if p.1 = h then some p.2 else lookupUser h rest

/-- Assignment connectedUsers[h] = u: replace the existing entry in place,
or append a new entry (JS object key-insertion order). -/
def upsert (h : String) (u : UserRec) : List (String × UserRec) → List (String × UserRec)
  | [] => [(h, u)]
  | p :: rest => if p.1 = h then (h, u) :: rest else p :: upsert h u rest

/-- In-place mutation of the fields of connectedUsers[h] (keys are unique,
so only the first occurrence is touched). -/
def updateUser (h : String) (f : UserRec → UserRec) :
    List (String × UserRec) → List (String × UserRec)
  | [] => []
  | p :: rest => if p.1 = h then (p.1, f p.2) :: rest else p :: updateUser h f rest

/-- The record stored on registration: the spread of the incoming data
(the Traffic Police branch re-sets lat and lon to data.lat and data.lon,
which the spread already put there, so both branches store the same
record). -/
def mkUser (d : RegisterData) : UserRec :=
  { role := d.role, licensePlate := d.licensePlate, name := d.name, phone := d.phone,
    lat := d.lat, lon := d.lon, location := none }

/-- The registerRole handler (src/server.js lines 139-152): an Ambulance
Driver needs a truthy licensePlate, a Traffic Police is stored without
validation, any other role is ignored.  Nothing is emitted. -/
def registerRole (h : String) (d : RegisterData) (s : ServerState) : ServerState :=
  if d.role = "Ambulance Driver" then
    if strTruthy d.licensePlate then { s with users := upsert h (mkUser d) s.users } else s
  else if d.role = "Traffic Police" then
    { s with users := upsert h (mkUser d) s.users }
  else s

/-- Squared planar distance between the stored officer coordinates and the
reported location (source line 177-179 takes the square root, which does
not change the strict comparison used by the fold). -/
def sqDist (u : UserRec) (l : Loc) : ℚ :=
  (u.lat.getD 0 - l.lat) * (u.lat.getD 0 - l.lat) +
    (u.lon.getD 0 - l.lon) * (u.lon.getD 0 - l.lon)

/-- Filter of source line 175: role is Traffic Police and both coordinates
are truthy. -/
def eligiblePolice (l : List (String × UserRec)) : List (String × UserRec) :=
  l.filter (fun p => p.2.role == "Traffic Police" && numTruthy p.2.lat && numTruthy p.2.lon)

/-- One step of the reduce of source lines 176-183.  The JS accumulator
starts as the object with distance Infinity and no socket field, modelled
as none; a real candidate always beats it because its distance is finite. -/
def selStep (loc : Loc) (acc : Option (String × UserRec × ℚ)) (c : String × UserRec) :
    Option (String × UserRec × ℚ) :=
  match acc with
  | none => some (c.1, c.2, sqDist c.2 loc)
  | some (h0, u0, d0) =>
      if sqDist c.2 loc < d0 then some (c.1, c.2, sqDist c.2 loc) else some (h0, u0, d0)

/-- The nearest-police reduce of source lines 174-183. -/
def selectNearest (cands : List (String × UserRec)) (loc : Loc) :
    Option (String × UserRec × ℚ) :=
  cands.foldl (selStep loc) none

/-- The mutation of source lines 165-167: store the reported plate and
location on the senders own record. -/
def emergencyUsers (h : String) (lp : String) (loc : Loc)
    (l : List (String × UserRec)) : List (String × UserRec) :=
  updateUser h (fun v => { v with licensePlate := some lp, location := some loc }) l

/-- The emergency handler (src/server.js lines 154-195): drop the event if
the plate or the location is missing (or the plate empty) or the sender is
not registered; otherwise record plate and location on the senders entry,
pick the nearest eligible Traffic Police and, if one exists, emit
emergencyAlert to it and policeLocation back to the sender.  When no
eligible police exists nothing is emitted (the source only logs). -/
def emergency (h : String) (licensePlate : Option String) (location : Option Loc)
    (s : ServerState) : ServerState × List Emit :=
  match licensePlate, location with
  | some lp, some loc =>
    if lp = "" then (s, [])
    else
      match lookupUser h s.users with
      | none => (s, [])
      | some _ =>
        match selectNearest (eligiblePolice (emergencyUsers h lp loc s.users)) loc with
        | some (ph, pu, _) =>
          ({ s with users := emergencyUsers h lp loc s.users },
            [Emit.emergencyAlert ph lp loc, Emit.policeLocation h pu.lat pu.lon])
        | none => ({ s with users := emergencyUsers h lp loc s.users }, [])
  | _, _ => (s, [])

/-- Target predicate of the trafficStatus handler (source lines 223-227):
an Ambulance Driver whose licensePlate strictly equals ambulanceId or
whose socket id strictly equals ambulanceId.  JS strict equality makes
undefined equal to undefined, which the Option equality reproduces. -/
def statusTargetPred (ambulanceId : Option String) (p : String × UserRec) : Bool :=
  decide (p.2.role = "Ambulance Driver" ∧
    (p.2.licensePlate = ambulanceId ∨ some p.1 = ambulanceId))

/-- The trafficStatus handler (src/server.js lines 214-235): drop the
event when status is falsy, otherwise send trafficStatusUpdate to the
first matching Ambulance Driver in registry insertion order, if any.  The
sender is not consulted. -/
def trafficStatus (_h : String) (status ambulanceId : Option String) (s : ServerState) :
    ServerState × List Emit :=
  match status with
  | none => (s, [])
  | some st =>
    if st = "" then (s, [])
    else
      match s.users.find? (statusTargetPred ambulanceId) with
      | some p => (s, [Emit.trafficStatusUpdate p.1 st])
      | none => (s, [])

/-- A new transport connection: the socket id becomes live; nothing enters
connectedUsers until registerRole. -/
def connect (h : String) (s : ServerState) : ServerState :=
  { s with sockets := s.sockets ++ [h] }

/-- Inbound events.  The first four have handlers registered inside the
connection callback (lines 136-252); trafficStatusReset,
sendNotification and updateLocation name events whose socket.on
registrations (lines 267, 274, 295) are dead top-level code on an
undefined socket and so are never attached; disconnect is the
transport-level close, whose application handler (line 312) is equally
never attached. -/
inductive Ev where
  | connect (h : String)
  | registerRole (h : String) (d : RegisterData)
  | emergency (h : String) (licensePlate : Option String) (location : Option Loc)
  | trafficStatus (h : String) (status ambulanceId : Option String)
  | trafficStatusReset (h : String)
  | sendNotification (h : String) (licensePlate phone message : Option String)
  | updateLocation (h : String) (lat lon : Option ℚ)
  | disconnect (h : String)
deriving DecidableEq

/-- One server step: dispatch the event to its registered handler.  Events
without a registered handler change nothing and emit nothing; a
transport-level disconnect removes the socket itself, but since the
cleanup at source lines 312-319 is never attached, the connectedUsers
entry of the handle survives. -/
def step (s : ServerState) : Ev → ServerState × List Emit
  | .connect h => (connect h s, [])
  | .registerRole h d => (registerRole h d s, [])
  | .emergency h lp loc => emergency h lp loc s
  | .trafficStatus h st aid => trafficStatus h st aid s
  | .trafficStatusReset _ => (s, [])
  | .sendNotification _ _ _ _ => (s, [])
  | .updateLocation _ _ _ => (s, [])
  | .disconnect h => ({ s with sockets := s.sockets.filter (fun k => k != h) }, [])

/-- The state of a freshly started server. -/
def initState : ServerState := { sockets := [], users := [] }

/-- Run a sequence of inbound events from the initial state. -/
def run (evs : List Ev) : ServerState :=
  evs.foldl (fun s e => (step s e).1) initState

/-! Concrete fixtures used by witnesses and counterexamples. -/

/-- Registration data of an Ambulance Driver with plate P1. -/
def regDriverP1 : RegisterData :=
  { role := "Ambulance Driver", licensePlate := some "P1", name := some "A",
    phone := some "111", lat := none, lon := none }

/-- Registration data of an Ambulance Driver without a plate. -/
def regDriverNoPlate : RegisterData :=
  { role := "Ambulance Driver", licensePlate := none, name := some "A",
    phone := none, lat := none, lon := none }

/-- Registration data of a Traffic Police at coordinates (5, 5). -/
def regPolice55 : RegisterData :=
  { role := "Traffic Police", licensePlate := none, name := some "T",
    phone := none, lat := some 5, lon := some 5 }

/-- A state with a single registered Ambulance Driver and no police. -/
def sOneDriver : ServerState :=
  { sockets := ["h1"], users := [("h1", mkUser regDriverP1)] }

/-- A state with a driver and a police, before any emergency. -/
def sPreDispatch : ServerState :=
  run [Ev.connect "h1", Ev.registerRole "h1" regDriverP1,
    Ev.connect "h2", Ev.registerRole "h2" regPolice55]

/-- Result of a successful emergency dispatch in sPreDispatch. -/
def dispatchResult : ServerState × List Emit :=
  emergency "h1" (some "P1") (some ⟨4, 5⟩) sPreDispatch

/-! Helper lemma about the nearest-police fold: starting from a concrete
accumulator, the fold either keeps it (and it already beats every
candidate) or returns the first candidate that strictly beats the
accumulator and every candidate before it, and no candidate beats the
result. -/

theorem selectNearest_go (loc : Loc) :
    ∀ (cands : List (String × UserRec)) (h0 : String) (u0 : UserRec) (d0 : ℚ)
      (h : String) (u : UserRec) (d : ℚ),
      cands.foldl (selStep loc) (some (h0, u0, d0)) = some (h, u, d) →
      d ≤ d0 ∧ (∀ c ∈ cands, d ≤ sqDist c.2 loc) ∧
        ((h = h0 ∧ u = u0 ∧ d = d0) ∨
          (d = sqDist u loc ∧ d < d0 ∧
            ∃ pre post, cands = pre ++ (h, u) :: post ∧ ∀ c ∈ pre, d < sqDist c.2 loc)) := by
  intro cands
  induction cands with
  | nil =>
    intro h0 u0 d0 h u d hfold
    simp only [List.foldl_nil, Option.some.injEq, Prod.mk.injEq] at hfold
    obtain ⟨h1, h2, h3⟩ := hfold
    subst h1; subst h2; subst h3
    exact ⟨le_refl _, by simp, Or.inl ⟨rfl, rfl, rfl⟩⟩
  | cons c rest ih =>
    intro h0 u0 d0 h u d hfold
    rw [List.foldl_cons] at hfold
    by_cases hc : sqDist c.2 loc < d0
    · rw [show selStep loc (some (h0, u0, d0)) c = some (c.1, c.2, sqDist c.2 loc) from by
        simp [selStep, hc]] at hfold
      obtain ⟨hd1, hall, hcase⟩ := ih c.1 c.2 (sqDist c.2 loc) h u d hfold
      refine ⟨le_of_lt (lt_of_le_of_lt hd1 hc), ?_, ?_⟩
      · intro x hx
        rcases List.mem_cons.mp hx with hx | hx
        · rw [hx]; exact hd1
        · exact hall x hx
      · rcases hcase with ⟨he1, he2, he3⟩ | ⟨he1, he2, pre, post, heq, hpre⟩
        · refine Or.inr ⟨?_, ?_, [], rest, ?_, by simp⟩
          · rw [he2, he3]
          · rw [he3]; exact hc
          · rw [he1, ← Prod.mk.eta (p := c)] at *; rw [he2]; simp [he1]
        · refine Or.inr ⟨he1, lt_trans he2 hc, c :: pre, post, by rw [heq, List.cons_append], ?_⟩
          intro x hx
          rcases List.mem_cons.mp hx with hx | hx
          · rw [hx]; exact he2
          · exact hpre x hx
    · rw [show selStep loc (some (h0, u0, d0)) c = some (h0, u0, d0) from by
        simp [selStep, hc]] at hfold
      obtain ⟨hd1, hall, hcase⟩ := ih h0 u0 d0 h u d hfold
      have hd0c : d0 ≤ sqDist c.2 loc := not_lt.mp hc
      refine ⟨hd1, ?_, ?_⟩
      · intro x hx
        rcases List.mem_cons.mp hx with hx | hx
        · rw [hx]; exact le_trans hd1 hd0c
        · exact hall x hx
      · rcases hcase with he | ⟨he1, he2, pre, post, heq, hpre⟩
        · exact Or.inl he
        · refine Or.inr ⟨he1, he2, c :: pre, post, by rw [heq, List.cons_append], ?_⟩
          intro x hx
          rcases List.mem_cons.mp hx with hx | hx
          · rw [hx]; exact lt_of_lt_of_le he2 hd0c
          · exact hpre x hx

/-- C4: for every emergency report with a reported location, among the
eligible police sessions (connected, role Traffic Police, truthy lat and
lon) the dispatcher selects the one minimizing planar Euclidean distance
to the reported location, ties broken by the first encountered in
registry iteration order: the selected candidate carries its squared
distance, no candidate is strictly nearer, and every candidate listed
before the selected one is strictly farther. -/
theorem c4_nearest_officer_selected (users : List (String × UserRec)) (loc : Loc)
    (h : String) (u : UserRec) (d : ℚ)
    (hsel : selectNearest (eligiblePolice users) loc = some (h, u, d)) :
    d = sqDist u loc ∧ (∀ c ∈ eligiblePolice users, d ≤ sqDist c.2 loc) ∧
      ∃ pre post, eligiblePolice users = pre ++ (h, u) :: post ∧
        ∀ c ∈ pre, d < sqDist c.2 loc := by
  cases hc : eligiblePolice users with
  | nil =>
    rw [hc] at hsel
    exact absurd hsel (by simp [selectNearest])
  | cons c rest =>
    rw [hc] at hsel
    rw [selectNearest, List.foldl_cons,
      show selStep loc none c = some (c.1, c.2, sqDist c.2 loc) from rfl] at hsel
    obtain ⟨hd1, hall, hcase⟩ := selectNearest_go loc rest c.1 c.2 (sqDist c.2 loc) h u d hsel
    rcases hcase with ⟨he1, he2, he3⟩ | ⟨he1, he2, pre, post, heq, hpre⟩
    · refine ⟨by rw [he3, he2], ?_, [], rest, ?_, by simp⟩
      · intro x hx
        rcases List.mem_cons.mp hx with hx | hx
        · rw [hx, he3]
        · exact hall x hx
      · rw [he1, he2]; simp
    · refine ⟨he1, ?_, c :: pre, post, by rw [heq, List.cons_append], ?_⟩
      · intro x hx
        rcases List.mem_cons.mp hx with hx | hx
        · rw [hx]; exact le_of_lt he2
        · exact hall x hx
      · intro x hx
        rcases List.mem_cons.mp hx with hx | hx
        · rw [hx]; exact he2
        · exact hpre x hx

/-- Fixtures for the C4 witness: the reported location and two eligible
police at planar distances 3.0 (squared 9) and 1.0 (squared 1). -/
def loc0 : Loc := ⟨10, 10⟩

/-- Police at distance 3.0 from loc0. -/
def farRec : UserRec :=
  { role := "Traffic Police", licensePlate := none, name := some "far",
    phone := none, lat := some 13, lon := some 10, location := none }

/-- Police at distance 1.0 from loc0. -/
def nearRec : UserRec :=
  { role := "Traffic Police", licensePlate := none, name := some "near",
    phone := none, lat := some 11, lon := some 10, location := none }

/-- Registry with the two police of the C4 scenario. -/
def cands0 : List (String × UserRec) :=
  [("pFar", farRec), ("pNear", nearRec)]

/-- C4 witness: with the two eligible officers at distances 3.0 and 1.0
the one at distance 1.0 is selected (squared distance 1), it minimizes the
distance, and the only candidate before it is strictly farther. -/
theorem c4_nearest_officer_selected_witness :
    (1 : ℚ) = sqDist nearRec loc0 ∧
      (∀ c ∈ eligiblePolice cands0, (1 : ℚ) ≤ sqDist c.2 loc0) ∧
      ∃ pre post, eligiblePolice cands0 = pre ++ ("pNear", nearRec) :: post ∧
        ∀ c ∈ pre, (1 : ℚ) < sqDist c.2 loc0 :=
  c4_nearest_officer_selected cands0 loc0 "pNear" nearRec 1 (by
    rw [show eligiblePolice cands0 = [("pFar", farRec), ("pNear", nearRec)] from by decide,
      selectNearest, List.foldl_cons, List.foldl_cons, List.foldl_nil,
      show selStep loc0 none ("pFar", farRec) = some ("pFar", farRec, sqDist farRec loc0)
        from rfl]
    simp only [selStep]
    norm_num [sqDist, farRec, nearRec, loc0])

/-- C5: an emergency dispatch that finds an eligible officer emits exactly
two events: emergencyAlert to the selected officer carrying the operators
license plate and reported location, and policeLocation to the reporting
operator carrying the officers stored lat and lon; the only state change
is the plate and location recorded on the operators entry. -/
theorem c5_dispatch_two_events (h lp : String) (loc : Loc) (s : ServerState)
    (u : UserRec) (ph : String) (pu : UserRec) (d : ℚ)
    (hlp : lp ≠ "") (hreg : lookupUser h s.users = some u)
    (hsel : selectNearest (eligiblePolice (emergencyUsers h lp loc s.users)) loc =
      some (ph, pu, d)) :
    emergency h (some lp) (some loc) s =
      ({ s with users := emergencyUsers h lp loc s.users },
        [Emit.emergencyAlert ph lp loc, Emit.policeLocation h pu.lat pu.lon]) := by
  simp [emergency, hlp, hreg, hsel]

/-- C5 witness: the concrete dispatch of sPreDispatch emits exactly the
two events. -/
theorem c5_dispatch_two_events_witness :
    emergency "h1" (some "P1") (some ⟨4, 5⟩) sPreDispatch =
      ({ sPreDispatch with users := emergencyUsers "h1" "P1" ⟨4, 5⟩ sPreDispatch.users },
        [Emit.emergencyAlert "h2" "P1" ⟨4, 5⟩, Emit.policeLocation "h1" (some 5) (some 5)]) :=
  c5_dispatch_two_events "h1" "P1" ⟨4, 5⟩ sPreDispatch (mkUser regDriverP1) "h2"
    (mkUser regPolice55) (sqDist (mkUser regPolice55) ⟨4, 5⟩)
    (by decide) (by decide) rfl

/-- C6: a registerRole declaring the Ambulance Driver role with a missing
or empty license plate is rejected: the whole server state (registry
included) is unchanged, so no session record is created and no identity
resolution can be affected. -/
theorem c6_operator_missing_identity_rejected (h : String) (d : RegisterData)
    (s : ServerState)
    (hrole : d.role = "Ambulance Driver") (hlp : strTruthy d.licensePlate = false) :
    registerRole h d s = s := by
  simp [registerRole, hrole, hlp]

/-- C6 witness: registering a driver without a plate in the initial state
leaves it unchanged. -/
theorem c6_operator_missing_identity_rejected_witness :
    registerRole "h1" regDriverNoPlate initState = initState :=
  c6_operator_missing_identity_rejected "h1" regDriverNoPlate initState rfl rfl

/-- C9: an emergency event with a missing or empty license plate, or a
missing location, or sent from a handle with no registered session, is
dropped: the state is unchanged and nothing is emitted. -/
theorem c9_rejected_emergency_keeps_state (h : String) (licensePlate : Option String)
    (location : Option Loc) (s : ServerState)
    (hrej : licensePlate = none ∨ licensePlate = some "" ∨ location = none ∨
      lookupUser h s.users = none) :
    emergency h licensePlate location s = (s, []) := by
  rcases hrej with h1 | h1 | h1 | h1
  · rw [h1]; rcases location with _ | loc <;> rfl
  · rw [h1]
    rcases location with _ | loc
    · rfl
    · simp [emergency]
  · rw [h1]; rcases licensePlate with _ | lp <;> rfl
  · rcases licensePlate with _ | lp
    · rfl
    · rcases location with _ | loc
      · rfl
      · by_cases hlp : lp = ""
        · simp [emergency, hlp]
        · simp [emergency, hlp, h1]

/-- C9 witness: an emergency without a plate leaves the initial state
unchanged and emits nothing. -/
theorem c9_rejected_emergency_keeps_state_witness :
    emergency "h9" none (some ⟨1, 1⟩) initState = (initState, []) :=
  c9_rejected_emergency_keeps_state "h9" none (some ⟨1, 1⟩) initState (Or.inl rfl)

/-- C10: a police session whose stored latitude or longitude equals 0 is
excluded from the dispatch candidates (eligibility is JS truthiness of
lat and lon, so the valid coordinate 0 counts as no known position). -/
theorem c10_zero_coordinate_ineligible (hh : String) (u : UserRec)
    (users : List (String × UserRec))
    (hzero : u.lat = some 0 ∨ u.lon = some 0) :
    (hh, u) ∉ eligiblePolice users := by
  intro hmem
  simp only [eligiblePolice, List.mem_filter, Bool.and_eq_true] at hmem
  obtain ⟨-, ⟨-, hlat⟩, hlon⟩ := hmem
  rcases hzero with h0 | h0
  · rw [h0] at hlat
    exact absurd hlat (by decide)
  · rw [h0] at hlon
    exact absurd hlon (by decide)

/-- A police record at latitude 0, used by the C10 witness. -/
def zeroLatRec : UserRec :=
  { role := "Traffic Police", licensePlate := none, name := some "T0",
    phone := none, lat := some 0, lon := some 5, location := none }

/-- C10 witness: the police at latitude 0 is not an eligible candidate
even when it is the only registered session. -/
theorem c10_zero_coordinate_ineligible_witness :
    ("p0", zeroLatRec) ∉ eligiblePolice [("p0", zeroLatRec)] :=
  c10_zero_coordinate_ineligible "p0" zeroLatRec [("p0", zeroLatRec)] (Or.inl rfl)

/-- C7 (code bug): the socket.on registration for updateLocation at
src/server.js lines 295-309 is a module top-level statement on the
undefined variable socket — the connection callback closes at line
252 — so the handler is never attached to any connection (and the
top-level registration at line 267 already raises a ReferenceError at
module load).  An updateLocation event reaching the server therefore
updates no stored position and broadcasts no liveLocationUpdate, against
the specified update-and-broadcast behavior. -/
theorem c7_update_location_never_handled (h : String) (lat lon : Option ℚ)
    (s : ServerState) :
    step s (Ev.updateLocation h lat lon) = (s, []) := rfl

/-- C8 (code bug): the disconnect cleanup at src/server.js lines 312-319
is top-level dead code never attached to any socket, so a transport-level
disconnect leaves the whole connectedUsers object untouched and the
registry lookup for the disconnected handle is not absent: concretely,
after the registered driver h1 disconnects, the lookup still returns its
session record. -/
theorem c8_disconnect_leaves_registry :
    (∀ (h : String) (s : ServerState), ((step s (Ev.disconnect h)).1).users = s.users) ∧
      lookupUser "h1" ((step sOneDriver (Ev.disconnect "h1")).1).users =
        some (mkUser regDriverP1) :=
  ⟨fun _ _ => rfl, by decide⟩

/-- C1 counterexample: in the concrete run where operator h1 (plate P1) is
successfully dispatched to officer h2 (the two dispatch events are
emitted), a following trafficStatus from h2 that names no operator
identity (ambulanceId undefined) emits nothing at all: no pairing is
recorded by the dispatch and no reverse-lookup happens, so no
trafficStatusUpdate reaches h1, contradicting the claim. -/
theorem c1_counterexample :
    dispatchResult.2 =
        [Emit.emergencyAlert "h2" "P1" ⟨4, 5⟩, Emit.policeLocation "h1" (some 5) (some 5)] ∧
      (trafficStatus "h2" (some "Clear") none dispatchResult.1).2 = [] :=
  ⟨by decide, by decide⟩

/-- C1 amended: the dispatch records no operator-to-officer pairing (only
the plate and location on the operators own record); a status report
naming no operator identity delivers nothing whenever every registered
Ambulance Driver has a plate (strict equality matches the undefined
ambulanceId only against an undefined plate), and a status report is
delivered to h1 exactly when it explicitly names an identity that
resolves, in registry insertion order, to h1. -/
theorem c1_status_routing_amended (s : ServerState) (h2 st : String)
    (hst : st ≠ "")
    (hplates : ∀ p ∈ s.users, p.2.role = "Ambulance Driver" → p.2.licensePlate ≠ none) :
    (trafficStatus h2 (some st) none s).2 = [] ∧
      ∀ (lp h1 : String) (u : UserRec),
        s.users.find? (statusTargetPred (some lp)) = some (h1, u) →
        (trafficStatus h2 (some st) (some lp) s).2 = [Emit.trafficStatusUpdate h1 st] := by
  constructor
  · have hfind : s.users.find? (statusTargetPred none) = none := by
      rw [List.find?_eq_none]
      intro p hp
      simp only [statusTargetPred, decide_eq_true_eq]
      rintro ⟨hrole, hlp | habs⟩
      · exact hplates p hp hrole hlp
      · exact Option.noConfusion habs
    simp [trafficStatus, hst, hfind]
  · intro lp h1 u hfind
    simp [trafficStatus, hst, hfind]

/-- C1 witness: in the state after the successful dispatch, the
no-identity status report delivers nothing and any explicitly resolved
identity is delivered to the resolved driver. -/
theorem c1_status_routing_amended_witness :
    (trafficStatus "h2" (some "Clear") none dispatchResult.1).2 = [] ∧
      ∀ (lp h1 : String) (u : UserRec),
        dispatchResult.1.users.find? (statusTargetPred (some lp)) = some (h1, u) →
        (trafficStatus "h2" (some "Clear") (some lp) dispatchResult.1).2 =
          [Emit.trafficStatusUpdate h1 "Clear"] :=
  c1_status_routing_amended dispatchResult.1 "h2" "Clear" (by decide) (by decide)

/-- C2 counterexample: with a registered operator and zero police, the
emergency emits no event whatsoever to the operator, in particular no
noPoliceAvailable event (the outbound event type of the source has no
such event; the failure is only logged), contradicting the claim that a
no-responder event is emitted. -/
theorem c2_counterexample :
    (emergency "h1" (some "P1") (some ⟨3, 4⟩) sOneDriver).2 = [] := by decide

/-- C2 amended: an emergency reported while no eligible police session
exists creates no pairing entry (none exists in the code) and emits no
event at all; the only state change is the plate and location recorded on
the operators own session record. -/
theorem c2_no_responder_amended (h lp : String) (loc : Loc) (s : ServerState) (u : UserRec)
    (hlp : lp ≠ "") (hreg : lookupUser h s.users = some u)
    (hnone : eligiblePolice (emergencyUsers h lp loc s.users) = []) :
    emergency h (some lp) (some loc) s =
      ({ s with users := emergencyUsers h lp loc s.users }, []) := by
  have hsel : selectNearest (eligiblePolice (emergencyUsers h lp loc s.users)) loc = none := by
    rw [hnone]; rfl
  simp [emergency, hlp, hreg, hsel]

/-- C2 witness: the concrete no-police emergency changes only the
operators own record and emits nothing. -/
theorem c2_no_responder_amended_witness :
    emergency "h1" (some "P1") (some ⟨3, 4⟩) sOneDriver =
      ({ sOneDriver with users := emergencyUsers "h1" "P1" ⟨3, 4⟩ sOneDriver.users }, []) :=
  c2_no_responder_amended "h1" "P1" ⟨3, 4⟩ sOneDriver (mkUser regDriverP1)
    (by decide) (by decide) (by decide)

/-- State in which driver h1 registered plate P1 first and driver h2
registered the same plate P1 later, both still connected. -/
def sTwoDrivers : ServerState :=
  run [Ev.connect "h1", Ev.registerRole "h1" regDriverP1,
    Ev.connect "h2", Ev.registerRole "h2" regDriverP1]

/-- C3 counterexample: with A registered as P1 on h1 first and B as P1 on
h2 later, both connected, a status event addressed to identity P1 is
delivered to h1 and not to h2, contradicting the last-registration-wins
claim. -/
theorem c3_counterexample :
    (trafficStatus "h9" (some "Clear") (some "P1") sTwoDrivers).2 =
        [Emit.trafficStatusUpdate "h1" "Clear"] ∧
      Emit.trafficStatusUpdate "h2" "Clear" ∉
        (trafficStatus "h9" (some "Clear") (some "P1") sTwoDrivers).2 :=
  ⟨by decide, by decide⟩

/-- C3 amended: when operator A registers identity P1 on handle h1 and
operator B later registers the same identity P1 on handle h2, while both
stay connected an event addressed to identity P1 is delivered to h1, the
first registration in registry insertion order (first registration wins;
there is no identity index, resolution scans the registry with find). -/
theorem c3_identity_first_wins (h1 h2 hx st : String) (d1 d2 : RegisterData)
    (hne : h1 ≠ h2) (hst : st ≠ "")
    (hr1 : d1.role = "Ambulance Driver") (hp1 : d1.licensePlate = some "P1")
    (hr2 : d2.role = "Ambulance Driver") (hp2 : d2.licensePlate = some "P1") :
    (trafficStatus hx (some st) (some "P1")
        (run [Ev.connect h1, Ev.registerRole h1 d1,
          Ev.connect h2, Ev.registerRole h2 d2])).2 =
      [Emit.trafficStatusUpdate h1 st] := by
  have hrun : (run [Ev.connect h1, Ev.registerRole h1 d1,
      Ev.connect h2, Ev.registerRole h2 d2]).users = [(h1, mkUser d1), (h2, mkUser d2)] := by
    simp [run, List.foldl, step, connect, registerRole, hr1, hr2, hp1, hp2, strTruthy,
      initState, upsert, hne]
  have hpred : statusTargetPred (some "P1") (h1, mkUser d1) = true := by
    simp [statusTargetPred, mkUser, hr1, hp1]
  simp [trafficStatus, hst, hrun, List.find?, hpred]

/-- C3 witness: the concrete double registration of plate P1 on h1 then
h2 delivers the status event to h1. -/
theorem c3_identity_first_wins_witness :
    (trafficStatus "h9" (some "Clear") (some "P1")
        (run [Ev.connect "h1", Ev.registerRole "h1" regDriverP1,
          Ev.connect "h2", Ev.registerRole "h2" regDriverP1])).2 =
      [Emit.trafficStatusUpdate "h1" "Clear"] :=
  c3_identity_first_wins "h1" "h2" "h9" "Clear" regDriverP1 regDriverP1
    (by decide) (by decide) (by decide) (by decide) (by decide) (by decide)

end AT
